import Mathlib

/-!
Verification of the retrieval / question-answering service of the
paperless RAG repository (tools/rag-api).  The definitions below are a
shallow embedding of the Python source: `app/main.py` (the `/ask`
handler, the Qdrant dependency, batch ingestion loops),
`app/paperless.py` (`build_document_url`), `app/spaces_config.py`
(per-space parameter resolution) and `app/extractors.py`
(`clean_text`, `detect_file_type`, `extract_text_from_file`).
External collaborators (the Qdrant index, the embedding model, the LLM
endpoint, the format-specific extraction libraries) are modelled as
explicit function parameters; fallible calls return `Except`.
-/

namespace RagApi

/-- Runtime settings from `app/config.py` (the module itself is not part of
the analysed sources; only the fields the embedded code reads are kept,
as abstract values of a record). -/
structure Settings where
  RAG_TOP_K : Int
  OPENROUTER_MODEL : String
  PAPERLESS_BASE_URL : String
  CHUNK_TOKENS : Int
  CHUNK_OVERLAP : Int

/-- A scored chunk as handled by `ask_question` in `app/main.py`: a dict
with keys `doc_id`, `title`, `page` (optional), `score`, `text`.
Scores are modelled as rationals. -/
structure Chunk where
  doc_id : Int
  title : String
  page : Option Int
  score : ℚ
  text : String
deriving DecidableEq, Repr

/-- A citation as built by `ask_question` (`app/models.py` `Citation`). -/
structure Citation where
  doc_id : Int
  title : String
  page : Option Int
  score : ℚ
  url : String
  snippet : String
deriving DecidableEq, Repr

/-- The request body of `POST /ask` (`app/models.py` `AskRequest`); the
`top_k` field is optional and `filter_tags` / `history` are carried
through opaquely. -/
structure AskRequest where
  query : String
  top_k : Option Int
  allow_general_chat : Bool
  filter_tags : List String
  history : List (String × String)

/-- The response body of `POST /ask`. -/
structure AskResponse where
  answer : String
  citations : List Citation
  query : String
  model_used : String
deriving DecidableEq, Repr

/-- Result of `generate_answer` in `app/llm.py` (external boundary):
a dict with keys `answer` and `model`. -/
structure LlmResult where
  answer : String
  model : String

/-- Outcome of an HTTP handler: a normal response or a raised
`HTTPException` with a status code and detail string. -/
inductive AskResult where
  | ok (resp : AskResponse)
  | httpError (status : Nat) (detail : String)
deriving DecidableEq

/-- `build_document_url` from `app/paperless.py`: the paperless base URL
followed by `/documents/` and the document id. -/
def build_document_url (s : Settings) (doc_id : Int) : String :=
  s.PAPERLESS_BASE_URL ++ "/documents/" ++ toString doc_id

/-- The fixed answer returned when no chunks are found and general chat is
not allowed (`app/main.py` line 253; the source text spells the second
word as a contraction). -/
def no_info_answer : String :=
  "I couldnt find any relevant information in the documents to answer your question."

/-- `top_k = request.top_k or settings.RAG_TOP_K` (`app/main.py` line 229).
Python `or` tests truthiness: `None` and `0` both fall back to the
configured default; any other integer (including negatives) is kept. -/
def effective_top_k (req_top_k : Option Int) (default : Int) : Int :=
  match req_top_k with
  | none => default
  | some k => if k = 0 then default else k

/-- `search_k = top_k * 2 if top_k < 20 else top_k` (`app/main.py`
line 231), applied to the effective top_k. -/
def ask_search_k (s : Settings) (req : AskRequest) : Int :=
  let top_k := effective_top_k req.top_k s.RAG_TOP_K
  if top_k < 20 then top_k * 2 else top_k

/-- Snippet construction for one citation (`app/main.py` line 274):
`chunk["text"][:300] + "..." if len(chunk["text"]) > 300 else chunk["text"]`. -/
def snippet_of (text : String) : String :=
  if 300 < text.length then text.take 300 ++ "..." else text

/-- One `Citation(...)` record of the citation-building loop in
`ask_question` (`app/main.py` lines 266-276). -/
def make_citation (s : Settings) (c : Chunk) : Citation :=
  { doc_id := c.doc_id
    title := c.title
    page := c.page
    score := c.score
    url := build_document_url s c.doc_id
    snippet := snippet_of c.text }

/-- The body of `ask_question` (`app/main.py` lines 218-289).  The
external collaborators appear as parameters: `search` is
`search_similar_chunks` applied to the fixed query/filter of the request
(taking the `top_k` cap and possibly failing), `dedupe` is
`deduplicate_chunks`, and `llm` is `generate_answer` on
(query, chunks, history).  The surrounding `try/except` turns any
failure of the search step into a generic 500 error. -/
def ask_question (s : Settings) (req : AskRequest)
    (search : Int → Except String (List Chunk))
    (dedupe : List Chunk → List Chunk)
    (llm : String → List Chunk → List (String × String) → LlmResult) : AskResult :=
  match search (ask_search_k s req) with
  | .error e => .httpError 500 ("Error processing question: " ++ e)
  | .ok chunks =>
    if chunks.isEmpty && req.allow_general_chat then
      let r := llm req.query [] req.history
      .ok { answer := r.answer, citations := [], query := req.query, model_used := r.model }
    else if chunks.isEmpty then
      .ok { answer := no_info_answer, citations := [], query := req.query,
            model_used := s.OPENROUTER_MODEL }
    else
      let kept := dedupe chunks
      let r := llm req.query kept req.history
      .ok { answer := r.answer, citations := kept.map (make_citation s),
            query := req.query, model_used := r.model }

/-- `get_qdrant_client` (`app/main.py` lines 135-153): if the global
client is present it is returned; otherwise one reconnection attempt is
made and, on failure, a typed 503 `HTTPException` is raised.  The global
client and the connection attempt are explicit parameters. -/
def get_qdrant_client (qdrant_client : Option Unit)
    (connect_attempt : Except String Unit) : Except (Nat × String) Unit :=
  match qdrant_client with
  | some c => .ok c
  | none =>
    match connect_attempt with
    | .ok c => .ok c
    | .error _ => .error (503, "Qdrant unavailable")

/-- The full `/ask` request path: FastAPI resolves the Qdrant dependency
first (surfacing its 503 on failure), then runs the handler body. -/
def ask_endpoint (qdrant_client : Option Unit) (connect_attempt : Except String Unit)
    (s : Settings) (req : AskRequest)
    (search : Int → Except String (List Chunk))
    (dedupe : List Chunk → List Chunk)
    (llm : String → List Chunk → List (String × String) → LlmResult) : AskResult :=
  match get_qdrant_client qdrant_client connect_attempt with
  | .error p => .httpError p.fst p.snd
  | .ok _ => ask_question s req search dedupe llm

/-! ## Deduplicator (spec-modelled)

`deduplicate_chunks` lives in `app/retriever.py`, which is not among the
provided sources (only its import and call site in `app/main.py` are).
It is modelled here from the specification. -/

/-- Whitespace predicate used for tokenisation (ASCII model of the
whitespace class). -/
def is_py_space (c : Char) : Bool :=
  decide (c.toNat = 32 ∨ c.toNat = 9 ∨ c.toNat = 10 ∨ c.toNat = 13 ∨
    c.toNat = 11 ∨ c.toNat = 12)

/-- Tokens of a chunk text: maximal non-whitespace runs. -/
def py_tokens (s : String) : List String :=
  (s.split (fun c => is_py_space c)).filter (fun w => w ≠ "")

/-- Whitespace normalisation: tokens rejoined with single spaces. -/
def ws_normalize (s : String) : String :=
  String.intercalate " " (py_tokens s)

/-- Size of the intersection of the two token multisets (minimum of the
two multiplicities, summed over distinct tokens). -/
def token_inter_count (a b : List String) : Nat :=
  ((a.dedup).map (fun t => min (a.count t) (b.count t))).sum

/-- Modelled from the spec: token-overlap ratio of two chunk texts — the
size of the intersection of their token multisets divided by the size of
the smaller chunk token set (§4.3 of the spec). -/
def token_overlap_ratio (x y : String) : ℚ :=
  let a := py_tokens x
  let b := py_tokens y
  (token_inter_count a b : ℚ) / (min a.dedup.length b.dedup.length : ℚ)

/-- Executable contiguous-subsequence test (Python `in` on strings and
bytes). -/
def infix_check {α : Type} [BEq α] (needle : List α) : List α → Bool
  | [] => needle.isEmpty
  | c :: rest => needle.isPrefixOf (c :: rest) || infix_check needle rest

/-- Substring test after whitespace normalisation. -/
def is_normalized_substring (x y : String) : Bool :=
  infix_check (ws_normalize x).toList (ws_normalize y).toList

/-- Modelled from the spec: two chunks are duplicates when they share a
`doc_id` and either their token-overlap ratio exceeds 0.8 or one text is
a substring of the other after whitespace normalisation (§4.3). -/
def is_duplicate (a b : Chunk) : Bool :=
  a.doc_id == b.doc_id &&
    (decide ((4 : ℚ) / 5 < token_overlap_ratio a.text b.text) ||
      is_normalized_substring a.text b.text ||
      is_normalized_substring b.text a.text)

/-- Greedy selection loop of the deduplicator: candidates are visited in
input (descending-score) order; a candidate is accepted only if it is
not a duplicate of any already-accepted chunk. -/
def dedupe_go (dup : Chunk → Chunk → Bool) (kept : List Chunk) :
    List Chunk → List Chunk
  | [] => []
  | c :: rest =>
    if kept.any (fun a => dup a c) then dedupe_go dup kept rest
    else c :: dedupe_go dup (c :: kept) rest

/-- Modelled from the spec: `deduplicate_chunks` from `app/retriever.py`
(module not among the provided sources), following §4.3 of the spec:
greedy, score-first selection over the already-ordered candidate list,
keeping a candidate only when it duplicates no accepted chunk. -/
def deduplicate_chunks (chunks : List Chunk) : List Chunk :=
  dedupe_go is_duplicate [] chunks

/-! ## Batch ingestion (`app/main.py` lines 344-385) -/

/-- Result dict of `ingest_document` (`app/ingest.py`, not among the
provided sources): status, number of chunks created, optional reason. -/
structure IngestResult where
  status : String
  chunks_created : Nat
  reason : Option String
deriving DecidableEq, Repr

/-- Running totals of `ingest_all_documents_background`. -/
structure BatchSummary where
  processed : Nat
  total_chunks : Nat
deriving DecidableEq, Repr

/-- The per-document loop of `ingest_all_documents_background`
(`app/main.py` lines 361-380): each document is ingested inside a
`try/except`; an exception is logged and the loop continues; a
non-success result is logged as skipped; successes bump the counters. -/
def batch_go (ingest : Int → Except String IngestResult) (acc : BatchSummary) :
    List Int → BatchSummary
  | [] => acc
  | d :: rest =>
    match ingest d with
    | .error _ => batch_go ingest acc rest
    | .ok r =>
      if r.status = "success" then
        batch_go ingest
          { processed := acc.processed + 1,
            total_chunks := acc.total_chunks + r.chunks_created } rest
      else batch_go ingest acc rest

/-- `ingest_all_documents_background` (`app/main.py` lines 344-385),
with the document list and the per-document ingestion outcome as
parameters. -/
def ingest_all_documents_background (ingest : Int → Except String IngestResult)
    (documents : List Int) : BatchSummary :=
  batch_go ingest { processed := 0, total_chunks := 0 } documents

/-! ## Per-space configuration (`app/spaces_config.py`) -/

/-- A configuration mapping with string keys; numeric values are
modelled as rationals. -/
abbrev ConfigDict := List (String × ℚ)

/-- Key lookup in a configuration mapping (first matching entry wins,
as for a Python dict). -/
def dict_lookup (d : ConfigDict) (k : String) : Option ℚ :=
  (d.find? (fun p => p.fst == k)).map (fun p => p.snd)

/-- Python dict merge `{**a, **b}`: per-key, `b` wins.  Putting `b`
first makes `dict_lookup` realise exactly that override semantics. -/
def dict_merge (a b : ConfigDict) : ConfigDict := b ++ a

/-- `_FALLBACK_DEFAULTS` (`app/spaces_config.py` lines 20-25): global
settings for the first three keys and a hardcoded 0.35 score
threshold. -/
def fallback_defaults (s : Settings) : ConfigDict :=
  [("chunk_tokens", (s.CHUNK_TOKENS : ℚ)),
   ("chunk_overlap", (s.CHUNK_OVERLAP : ℚ)),
   ("top_k", (s.RAG_TOP_K : ℚ)),
   ("score_threshold", 35 / 100)]

/-- Parsed content of `spaces.yaml` when the file exists and is
readable. -/
structure SpacesFileData where
  defaults : ConfigDict
  spaces : List (String × ConfigDict)

/-- Resolved configuration: defaults plus per-space override dicts. -/
structure SpacesConfigData where
  defaults : ConfigDict
  spaces : List (String × ConfigDict)

/-- `load_spaces_config` (`app/spaces_config.py` lines 37-52): a missing
or unreadable file yields the fallback defaults and no spaces; otherwise
the file defaults are merged over the fallback defaults. -/
def load_spaces_config (s : Settings) (file : Option SpacesFileData) :
    SpacesConfigData :=
  match file with
  | none => { defaults := fallback_defaults s, spaces := [] }
  | some data =>
    { defaults := dict_merge (fallback_defaults s) data.defaults,
      spaces := data.spaces }

/-- Lookup of a space slug among the defined spaces. -/
def spaces_lookup (sp : List (String × ConfigDict)) (k : String) :
    Option ConfigDict :=
  (sp.find? (fun p => p.fst == k)).map (fun p => p.snd)

/-- `SpaceParams` dataclass (`app/spaces_config.py` lines 28-34). -/
structure SpaceParams where
  chunk_tokens : Int
  chunk_overlap : Int
  top_k : Int
  score_threshold : ℚ
deriving DecidableEq, Repr

/-- Python `int()` on a numeric value: truncation toward zero. -/
def rat_trunc (x : ℚ) : Int :=
  if x < 0 then -((-x).floor) else x.floor

/-- `get_space_params` (`app/spaces_config.py` lines 79-98): when the
space id is truthy and defined, the defaults are merged with the
override dict minus its `name` key; otherwise the defaults are used
as-is.  The four parameters are then read out with `int()` / `float()`
conversions. -/
def get_space_params (s : Settings) (file : Option SpacesFileData)
    (space_id : Option String) : SpaceParams :=
  let config := load_spaces_config s file
  let defaults := config.defaults
  let merged : ConfigDict :=
    match space_id with
    | some sid =>
      if sid ≠ "" then
        match spaces_lookup config.spaces sid with
        | some overrides =>
          dict_merge defaults (overrides.filter (fun p => p.fst != "name"))
        | none => defaults
      else defaults
    | none => defaults
  { chunk_tokens := rat_trunc ((dict_lookup merged "chunk_tokens").getD 0)
    chunk_overlap := rat_trunc ((dict_lookup merged "chunk_overlap").getD 0)
    top_k := rat_trunc ((dict_lookup merged "top_k").getD 0)
    score_threshold := (dict_lookup merged "score_threshold").getD 0 }

/-! ## Text cleaning (`app/extractors.py` `clean_text`) -/

/-- Step 1 of `clean_text`: `text.replace("\x00", " ")`. -/
def replace_nul (l : List Char) : List Char :=
  l.map (fun c => if c.toNat = 0 then Char.ofNat 32 else c)

/-- Worker for the whitespace collapse: the flag records whether the
previous character belonged to a whitespace run already emitted as a
single space. -/
def collapse_ws_go : Bool → List Char → List Char
  | _, [] => []
  | in_run, c :: rest =>
    if is_py_space c then
      if in_run then collapse_ws_go true rest
      else Char.ofNat 32 :: collapse_ws_go true rest
    else c :: collapse_ws_go false rest

/-- Step 2 of `clean_text`: the whitespace-run substitution collapsing
every maximal whitespace run to a single space. -/
def collapse_ws (l : List Char) : List Char := collapse_ws_go false l

/-- Number of newline characters in a list. -/
def count_nl (l : List Char) : Nat := l.countP (fun c => c.toNat = 10)

/-- Worker for the triple-newline substitution, fuelled by the input
length (each step consumes at least one character and one unit of
fuel).  At a newline, the maximal whitespace run starting there is
inspected; if it holds at least three newlines, its prefix up to the
last newline is replaced by two newlines and scanning resumes after
it. -/
def collapse_nl_go : Nat → List Char → List Char
  | 0, l => l
  | _ + 1, [] => []
  | fuel + 1, c :: rest =>
    if c.toNat = 10 then
      let run := List.takeWhile is_py_space (c :: rest)
      if 3 ≤ count_nl run then
        let keep_len := run.length - (run.reverse.takeWhile (fun d => d.toNat ≠ 10)).length
        Char.ofNat 10 :: Char.ofNat 10 :: collapse_nl_go fuel (List.drop keep_len (c :: rest))
      else c :: collapse_nl_go fuel rest
    else c :: collapse_nl_go fuel rest

/-- Step 3 of `clean_text`: the substitution collapsing whitespace
spans containing three or more newlines down to a paragraph break.
(After step 2 no newline remains, so in the pipeline this is inert.) -/
def collapse_nl (l : List Char) : List Char := collapse_nl_go l.length l

/-- Word characters (ASCII model of the word class). -/
def is_word_code (n : Nat) : Bool :=
  decide ((48 ≤ n ∧ n ≤ 57) ∨ (65 ≤ n ∧ n ≤ 90) ∨ (97 ≤ n ∧ n ≤ 122) ∨ n = 95)

/-- Character codes of the punctuation kept by the OCR-artifact sweep. -/
def allowed_punct_codes : List Nat :=
  [45, 46, 44, 59, 58, 33, 63, 40, 41, 91, 93, 123, 125, 34, 39, 47, 92,
   64, 35, 36, 37, 94, 38, 42, 43, 61, 60, 62, 126, 96, 124]

/-- A character the OCR-artifact sweep keeps: word character, whitespace
or listed punctuation. -/
def is_allowed_char (c : Char) : Bool :=
  is_word_code c.toNat || is_py_space c || allowed_punct_codes.contains c.toNat

/-- Step 4 of `clean_text`: every disallowed character is replaced by a
space. -/
def sweep_artifacts (l : List Char) : List Char :=
  l.map (fun c => if is_allowed_char c then c else Char.ofNat 32)

/-- Python `str.strip()`: whitespace removed from both ends. -/
def py_strip (l : List Char) : List Char :=
  ((l.dropWhile is_py_space).reverse.dropWhile is_py_space).reverse

/-- `clean_text` (`app/extractors.py` lines 41-66): falsy input yields
the empty string; otherwise null characters become spaces, whitespace
runs collapse, the triple-newline rule applies, disallowed characters
are swept to spaces and the ends are stripped. -/
def clean_text (s : String) : String :=
  if s == "" then ""
  else (py_strip (sweep_artifacts (collapse_nl (collapse_ws (replace_nul s.toList))))).asString

/-- The page loop of `extract_pdf_text` (`app/extractors.py` lines
79-94): pages are numbered from 1; a page whose extraction call fails
is skipped; each extracted text is passed through `clean_text` and only
non-empty cleaned pages are kept. -/
def pdf_pages (raw_pages : List (Except String String)) : List (Nat × String) :=
  (List.enumFrom 1 raw_pages).filterMap (fun p =>
    match p.snd with
    | .error _ => none
    | .ok t =>
      let cleaned := clean_text t
      if cleaned ≠ "" then some (p.fst, cleaned) else none)

/-! ## File-type detection and dispatch (`app/extractors.py`) -/

/-- Byte string of an ASCII literal. -/
def str_bytes (s : String) : List Nat := s.toList.map (fun c => c.toNat)

/-- `bytes.lower()`: ASCII uppercase mapped to lowercase. -/
def bytes_lower (b : List Nat) : List Nat :=
  b.map (fun n => if 65 ≤ n ∧ n ≤ 90 then n + 32 else n)

/-- Continuation byte of a UTF-8 sequence. -/
def utf8_cont (n : Nat) : Bool := decide (128 ≤ n ∧ n ≤ 191)

/-- Strict UTF-8 validity of a byte list, as checked by Python
`bytes.decode("utf-8")` (overlong forms, surrogates and values beyond
U+10FFFF rejected; a truncated trailing sequence is invalid). -/
def utf8_valid : List Nat → Bool
  | [] => true
  | b :: rest =>
    if b ≤ 127 then utf8_valid rest
    else if 194 ≤ b ∧ b ≤ 223 then
      match rest with
      | c1 :: r => utf8_cont c1 && utf8_valid r
      | [] => false
    else if b = 224 then
      match rest with
      | c1 :: c2 :: r => decide (160 ≤ c1 ∧ c1 ≤ 191) && utf8_cont c2 && utf8_valid r
      | _ => false
    else if 225 ≤ b ∧ b ≤ 236 then
      match rest with
      | c1 :: c2 :: r => utf8_cont c1 && utf8_cont c2 && utf8_valid r
      | _ => false
    else if b = 237 then
      match rest with
      | c1 :: c2 :: r => decide (128 ≤ c1 ∧ c1 ≤ 159) && utf8_cont c2 && utf8_valid r
      | _ => false
    else if 238 ≤ b ∧ b ≤ 239 then
      match rest with
      | c1 :: c2 :: r => utf8_cont c1 && utf8_cont c2 && utf8_valid r
      | _ => false
    else if b = 240 then
      match rest with
      | c1 :: c2 :: c3 :: r =>
        decide (144 ≤ c1 ∧ c1 ≤ 191) && utf8_cont c2 && utf8_cont c3 && utf8_valid r
      | _ => false
    else if 241 ≤ b ∧ b ≤ 243 then
      match rest with
      | c1 :: c2 :: c3 :: r => utf8_cont c1 && utf8_cont c2 && utf8_cont c3 && utf8_valid r
      | _ => false
    else if b = 244 then
      match rest with
      | c1 :: c2 :: c3 :: r =>
        decide (128 ≤ c1 ∧ c1 ≤ 143) && utf8_cont c2 && utf8_cont c3 && utf8_valid r
      | _ => false
    else false

/-- ASCII lowercasing of a filename (`filename.lower()`), as a
character list. -/
def filename_lower (s : String) : List Char :=
  s.toList.map (fun c =>
    if 65 ≤ c.toNat ∧ c.toNat ≤ 90 then Char.ofNat (c.toNat + 32) else c)

/-- `str.endswith` on the lowercased filename. -/
def ends_with (l : List Char) (suffix : String) : Bool :=
  suffix.toList.isSuffixOf l

/-- `detect_file_type` (`app/extractors.py` lines 319-375): extension
checks on the lowercased filename, then magic bytes, then an HTML
sniff, then a UTF-8 decodability probe, else `unknown`. -/
def detect_file_type (filename : String) (content : List Nat) : String :=
  let fl := filename_lower filename
  if ends_with fl ".pdf" then "pdf"
  else if ends_with fl ".docx" then "docx"
  else if ends_with fl ".txt" || ends_with fl ".text" then "txt"
  else if ends_with fl ".md" || ends_with fl ".markdown" then "md"
  else if ends_with fl ".html" || ends_with fl ".htm" then "html"
  else if ends_with fl ".xlsx" || ends_with fl ".xlsm" then "xlsx"
  else if ends_with fl ".xls" then "xls"
  else if ends_with fl ".pptx" then "pptx"
  else if ends_with fl ".ppt" then "ppt"
  else if (str_bytes "%PDF").isPrefixOf content then "pdf"
  else if [80, 75, 3, 4].isPrefixOf content ∧
      infix_check (str_bytes "word/") (content.take 2048) then "docx"
  else if [80, 75, 3, 4].isPrefixOf content ∧
      infix_check (str_bytes "xl/") (content.take 2048) then "xlsx"
  else if [80, 75, 3, 4].isPrefixOf content ∧
      infix_check (str_bytes "ppt/") (content.take 2048) then "pptx"
  else if infix_check (str_bytes "<html") (bytes_lower (content.take 1024)) ||
      infix_check (str_bytes "<!doctype html") (bytes_lower (content.take 1024)) then "html"
  else if utf8_valid (content.take 1024) then "txt"
  else "unknown"

/-- Failure of a format-specific extractor: a missing optional library
or an extraction error. -/
inductive ExtractErr where
  | libMissing (msg : String)
  | extractFailed (msg : String)
deriving DecidableEq, Repr

/-- The format-specific libraries (pypdf, python-docx, codecs,
markdown + bs4, openpyxl, python-pptx) behind the extractor functions,
as abstract fallible calls on the raw bytes.  Each field yields the
*raw* assembled text of its extractor — the paragraphs and table rows
joined for docx, the decoded bytes for txt, the tag-stripped markup for
md/html, the joined cells or shapes for xlsx/pptx, the per-page
extraction results for pdf — before the `clean_text` call that every
extractor in `app/extractors.py` applies to it. -/
structure Extractors where
  pdf : List Nat → Except ExtractErr (List (Except String String))
  docx : List Nat → Except ExtractErr String
  txt : List Nat → Except ExtractErr String
  md : List Nat → Except ExtractErr String
  html : List Nat → Except ExtractErr String
  xlsx : List Nat → Except ExtractErr String
  pptx : List Nat → Except ExtractErr String

/-- `extract_pdf_text` (`app/extractors.py` lines 69-100): the library
parse may fail (re-raised as a `ValueError`, absorbed upstream); the
per-page loop cleans and filters the page texts. -/
def extract_pdf_text (E : Extractors) (content : List Nat) :
    Except ExtractErr (List (Nat × String)) :=
  (E.pdf content).map pdf_pages

/-- `extract_docx_text` (`app/extractors.py` lines 103-142):
`clean_text` applied to the joined paragraph and table text. -/
def extract_docx_text (E : Extractors) (content : List Nat) :
    Except ExtractErr String :=
  (E.docx content).map clean_text

/-- `extract_txt_text` (`app/extractors.py` lines 145-172):
`clean_text` applied to the decoded bytes. -/
def extract_txt_text (E : Extractors) (content : List Nat) :
    Except ExtractErr String :=
  (E.txt content).map clean_text

/-- `extract_markdown_text` (`app/extractors.py` lines 175-207): both
the bs4 path and the regex-stripping fallback end in `clean_text`. -/
def extract_markdown_text (E : Extractors) (content : List Nat) :
    Except ExtractErr String :=
  (E.md content).map clean_text

/-- `extract_html_text` (`app/extractors.py` lines 210-251):
`clean_text` applied to the tag-stripped document text. -/
def extract_html_text (E : Extractors) (content : List Nat) :
    Except ExtractErr String :=
  (E.html content).map clean_text

/-- `extract_xlsx_text` (`app/extractors.py` lines 254-285):
`clean_text` applied to the joined sheet rows. -/
def extract_xlsx_text (E : Extractors) (content : List Nat) :
    Except ExtractErr String :=
  (E.xlsx content).map clean_text

/-- `extract_pptx_text` (`app/extractors.py` lines 288-316):
`clean_text` applied to the joined slide shapes. -/
def extract_pptx_text (E : Extractors) (content : List Nat) :
    Except ExtractErr String :=
  (E.pptx content).map clean_text

/-- `[(None, text)] if text else []`: the page list built from a
single-text extractor result in `extract_text_from_file`. -/
def to_single_pages (text : String) : List (Option Nat × String) :=
  if text ≠ "" then [(none, text)] else []

/-- The `try` block of `extract_text_from_file` (`app/extractors.py`
lines 390-415): dispatch on the detected file type; single-text formats
yield one unpaginated page when non-empty; an unsupported type yields
an empty page list. -/
def extract_text_inner (E : Extractors) (filename : String) (content : List Nat) :
    Except ExtractErr (List (Option Nat × String)) :=
  let file_type := detect_file_type filename content
  if file_type = "pdf" then
    (extract_pdf_text E content).map (fun pages => pages.map (fun p => (some p.fst, p.snd)))
  else if file_type = "docx" then
    (extract_docx_text E content).map to_single_pages
  else if file_type = "txt" then
    (extract_txt_text E content).map to_single_pages
  else if file_type = "md" then
    (extract_markdown_text E content).map to_single_pages
  else if file_type = "html" then
    (extract_html_text E content).map to_single_pages
  else if file_type = "xlsx" ∨ file_type = "xls" then
    (extract_xlsx_text E content).map to_single_pages
  else if file_type = "pptx" ∨ file_type = "ppt" then
    (extract_pptx_text E content).map to_single_pages
  else .ok []

/-- `extract_text_from_file` (`app/extractors.py` lines 378-422): the
dispatch runs under a handler that converts both a missing-library
error and any extraction error into an empty page list. -/
def extract_text_from_file (E : Extractors) (filename : String)
    (content : List Nat) : List (Option Nat × String) :=
  match extract_text_inner E filename content with
  | .ok pages => pages
  | .error _ => []

/-- Modelled from the spec: `ingest_document` of `app/ingest.py` is not
among the provided sources.  Per §4.5 of the spec, a document whose
text cannot be extracted yields `skipped` with a reason and never
raises; otherwise chunks are created from the extracted pages. -/
def ingest_document (E : Extractors) (filename : String) (content : List Nat)
    (chunker : List (Option Nat × String) → Nat) : IngestResult :=
  let pages := extract_text_from_file E filename content
  if pages.isEmpty then
    { status := "skipped", chunks_created := 0, reason := some "no extractable text" }
  else
    { status := "success", chunks_created := chunker pages, reason := none }

/-! ## Theorems -/

/-- Claim C1: for every retrieval request the candidate-pool size
`search_k` equals `top_k * 2` when `top_k < 20` and `top_k` otherwise;
the handler invokes the retrieval step with exactly `search_k` as its
result cap (it depends on the search function only through its value at
`search_k`); and, for a retrieval step honouring its cap, the returned
candidate sequence has length at most `search_k`. -/
theorem search_k_policy (s : Settings) (req : AskRequest) (tk : Int)
    (htk : effective_top_k req.top_k s.RAG_TOP_K = tk) :
    (tk < 20 → ask_search_k s req = tk * 2) ∧
    (¬ tk < 20 → ask_search_k s req = tk) ∧
    (∀ (search₁ search₂ : Int → Except String (List Chunk))
      (dedupe : List Chunk → List Chunk)
      (llm : String → List Chunk → List (String × String) → LlmResult),
      search₁ (ask_search_k s req) = search₂ (ask_search_k s req) →
      ask_question s req search₁ dedupe llm = ask_question s req search₂ dedupe llm) ∧
    (∀ (search : Int → Except String (List Chunk)) (chunks : List Chunk),
      (∀ k l, search k = Except.ok l → l.length ≤ k.toNat) →
      search (ask_search_k s req) = Except.ok chunks →
      chunks.length ≤ (ask_search_k s req).toNat) := by
  refine ⟨?_, ?_, ?_, ?_⟩
  · intro h
    simp [ask_search_k, htk, h]
  · intro h
    simp [ask_search_k, htk, h]
  · intro search₁ search₂ dedupe llm h
    simp only [ask_question, h]
  · intro search chunks hcap hok
    exact hcap _ _ hok

/-- Witness for C1 at a concrete request. -/
theorem search_k_policy_witness :
    ask_search_k ⟨5, "m", "u", 500, 50⟩ ⟨"q", some 5, false, [], []⟩ = 5 * 2 ∧
    (List.replicate 10 (⟨1, "t", none, 1, "x"⟩ : Chunk)).length ≤
      (ask_search_k ⟨5, "m", "u", 500, 50⟩ ⟨"q", some 5, false, [], []⟩).toNat := by
  have h := search_k_policy ⟨5, "m", "u", 500, 50⟩ ⟨"q", some 5, false, [], []⟩ 5 (by decide)
  refine ⟨h.1 (by decide), ?_⟩
  have hcap : ∀ (k : Int) (l : List Chunk),
      (fun k : Int =>
        (Except.ok (List.replicate k.toNat (⟨1, "t", none, 1, "x"⟩ : Chunk)) :
          Except String (List Chunk))) k = Except.ok l →
      l.length ≤ k.toNat := by
    intro k l hl
    have he := Except.ok.inj hl
    simp [← he]
  have h4 := h.2.2.2 _ _ hcap rfl
  exact h4

/-- Claim C2: when retrieval returns zero chunks the handler either
falls back to the LLM with an empty context (when general chat is
allowed) or returns the fixed no-information answer without invoking
the LLM (when it is not); in both cases `citations = []` and no error
is raised. -/
theorem empty_retrieval_fallback (s : Settings) (req : AskRequest)
    (search : Int → Except String (List Chunk))
    (dedupe : List Chunk → List Chunk)
    (llm : String → List Chunk → List (String × String) → LlmResult)
    (hempty : search (ask_search_k s req) = Except.ok []) :
    (req.allow_general_chat = true →
      ask_question s req search dedupe llm =
        AskResult.ok
          { answer := (llm req.query [] req.history).answer, citations := [],
            query := req.query, model_used := (llm req.query [] req.history).model }) ∧
    (req.allow_general_chat = false →
      ask_question s req search dedupe llm =
        AskResult.ok
          { answer := no_info_answer, citations := [], query := req.query,
            model_used := s.OPENROUTER_MODEL } ∧
      ∀ llm2, ask_question s req search dedupe llm2 =
        ask_question s req search dedupe llm) := by
  constructor
  · intro hallow
    simp [ask_question, hempty, hallow]
  · intro hallow
    constructor
    · simp [ask_question, hempty, hallow]
    · intro llm2
      simp [ask_question, hempty, hallow]

/-- Witness for C2 at a concrete request (general chat disallowed). -/
theorem empty_retrieval_fallback_witness :
    ask_question ⟨5, "m", "u", 500, 50⟩ ⟨"q", some 5, false, [], []⟩
      (fun _ => Except.ok []) id (fun _ _ _ => ⟨"a", "m2"⟩) =
    AskResult.ok
      { answer := no_info_answer, citations := [], query := "q", model_used := "m" } :=
  ((empty_retrieval_fallback ⟨5, "m", "u", 500, 50⟩ ⟨"q", some 5, false, [], []⟩
    (fun _ => Except.ok []) id (fun _ _ _ => ⟨"a", "m2"⟩) rfl).2 rfl).1

/-- Claim C3: for a non-empty deduplicated chunk list the response
carries exactly one citation per retained chunk, in order, each built
from that chunk (doc_id, title, optional page, score, constructed
document URL) with the snippet equal to the text when it has at most
300 characters and to the first 300 characters followed by the ellipsis
marker otherwise. -/
theorem citations_per_chunk (s : Settings) (req : AskRequest)
    (search : Int → Except String (List Chunk))
    (dedupe : List Chunk → List Chunk)
    (llm : String → List Chunk → List (String × String) → LlmResult)
    (chunks : List Chunk)
    (hok : search (ask_search_k s req) = Except.ok chunks)
    (hne : chunks ≠ []) :
    ask_question s req search dedupe llm =
      AskResult.ok
        { answer := (llm req.query (dedupe chunks) req.history).answer,
          citations := (dedupe chunks).map (make_citation s),
          query := req.query,
          model_used := (llm req.query (dedupe chunks) req.history).model } ∧
    ((dedupe chunks).map (make_citation s)).length = (dedupe chunks).length ∧
    (∀ c ∈ dedupe chunks,
      make_citation s c =
        { doc_id := c.doc_id, title := c.title, page := c.page, score := c.score,
          url := build_document_url s c.doc_id, snippet := snippet_of c.text } ∧
      (c.text.length ≤ 300 → snippet_of c.text = c.text) ∧
      (300 < c.text.length → snippet_of c.text = c.text.take 300 ++ "...")) := by
  refine ⟨?_, List.length_map _ _, ?_⟩
  · have hne2 : chunks.isEmpty = false := by
      cases chunks with
      | nil => exact absurd rfl hne
      | cons a t => rfl
    simp [ask_question, hok, hne2]
  · intro c _
    refine ⟨rfl, ?_, ?_⟩
    · intro hle
      simp [snippet_of, Nat.not_lt_of_le hle]
    · intro hgt
      simp [snippet_of, hgt]

/-- Witness for C3 at a concrete request with one retained chunk. -/
theorem citations_per_chunk_witness :
    ask_question ⟨5, "m", "u", 500, 50⟩ ⟨"q", some 5, false, [], []⟩
      (fun _ => Except.ok [⟨7, "t", some 2, 1, "hello"⟩]) id
      (fun _ _ _ => ⟨"a", "m2"⟩) =
    AskResult.ok
      { answer := "a",
        citations := [⟨7, "t", some 2, 1, "u/documents/7", "hello"⟩],
        query := "q", model_used := "m2" } := by
  have h := citations_per_chunk ⟨5, "m", "u", 500, 50⟩ ⟨"q", some 5, false, [], []⟩
    (fun _ => Except.ok [⟨7, "t", some 2, 1, "hello"⟩]) id
    (fun _ _ _ => ⟨"a", "m2"⟩) [⟨7, "t", some 2, 1, "hello"⟩] rfl (by simp)
  have h1 := h.1
  simpa [make_citation, build_document_url, snippet_of] using h1

/-- The `/ask` handler body never raises a 400 error: its only error
path is the generic 500 wrapper. -/
theorem ask_question_no_400 (s : Settings) (req : AskRequest)
    (search : Int → Except String (List Chunk))
    (dedupe : List Chunk → List Chunk)
    (llm : String → List Chunk → List (String × String) → LlmResult)
    (d : String) :
    ask_question s req search dedupe llm ≠ AskResult.httpError 400 d := by
  unfold ask_question
  cases hq : search (ask_search_k s req) with
  | error e => simp
  | ok chunks =>
    split
    · simp
    · split
      · simp
      · split <;> simp

/-- Claim C9: a request whose `top_k` is omitted or zero has the
configured default substituted before `search_k` is computed (Python
`or` tests truthiness), so a supplied 0 does not cap the result at
zero, and the request is never rejected with a 400 `InvalidRequest`
error at this boundary. -/
theorem topk_truthiness_default (s : Settings) (req : AskRequest)
    (search : Int → Except String (List Chunk))
    (dedupe : List Chunk → List Chunk)
    (llm : String → List Chunk → List (String × String) → LlmResult)
    (h : req.top_k = none ∨ req.top_k = some 0) :
    effective_top_k req.top_k s.RAG_TOP_K = s.RAG_TOP_K ∧
    ask_question s req search dedupe llm =
      ask_question s { req with top_k := none } search dedupe llm ∧
    (∀ d, ask_question s req search dedupe llm ≠ AskResult.httpError 400 d) := by
  have heff : effective_top_k req.top_k s.RAG_TOP_K = s.RAG_TOP_K := by
    rcases h with h | h <;> simp [effective_top_k, h]
  have hsk : ask_search_k s req = ask_search_k s { req with top_k := none } := by
    rcases h with h | h <;> simp [ask_search_k, effective_top_k, h]
  refine ⟨heff, ?_, ?_⟩
  · simp only [ask_question, hsk]
  · intro d
    exact ask_question_no_400 s req search dedupe llm d

/-- Witness for C9 at a concrete request with `top_k = 0`. -/
theorem topk_truthiness_default_witness :
    effective_top_k (some 0) (5 : Int) = 5 ∧
    ask_question ⟨5, "m", "u", 500, 50⟩ ⟨"q", some 0, false, [], []⟩
      (fun _ => Except.ok []) id (fun _ _ _ => ⟨"a", "m2"⟩) =
    ask_question ⟨5, "m", "u", 500, 50⟩ ⟨"q", none, false, [], []⟩
      (fun _ => Except.ok []) id (fun _ _ _ => ⟨"a", "m2"⟩) := by
  have h := topk_truthiness_default ⟨5, "m", "u", 500, 50⟩ ⟨"q", some 0, false, [], []⟩
    (fun _ => Except.ok []) id (fun _ _ _ => ⟨"a", "m2"⟩) (Or.inr rfl)
  exact ⟨h.1, h.2.1⟩

/-- Counterexample to claim C5: with the Qdrant client connected at
request time, a backend failure during the retrieval call itself (for
example a timeout) surfaces as the generic 500 error, not as the typed
503 unavailability error the claim requires. -/
theorem retrieval_unavailable_cex :
    ask_endpoint (some ()) (Except.ok ()) ⟨5, "m", "u", 500, 50⟩
      ⟨"q", some 5, false, [], []⟩ (fun _ => Except.error "timeout") id
      (fun _ _ _ => ⟨"a", "m2"⟩) =
      AskResult.httpError 500 ("Error processing question: " ++ "timeout") ∧
    ∀ d, ask_endpoint (some ()) (Except.ok ()) ⟨5, "m", "u", 500, 50⟩
      ⟨"q", some 5, false, [], []⟩ (fun _ => Except.error "timeout") id
      (fun _ _ _ => ⟨"a", "m2"⟩) ≠ AskResult.httpError 503 d := by
  constructor
  · rfl
  · intro d hcontra
    have : (500 : Nat) = 503 := (AskResult.httpError.inj hcontra).1
    simp at this

/-- Amended claim C5: only a request that finds the Qdrant client
unconnected and fails the one lazy reconnection attempt surfaces the
typed 503 unavailability error (with no internal retry in the
embedding, a single connection attempt decides the outcome); a failure
of the index or embedder during the retrieval call itself surfaces as
the generic 500 error instead. -/
theorem retrieval_error_surfaces (s : Settings) (req : AskRequest)
    (search : Int → Except String (List Chunk))
    (dedupe : List Chunk → List Chunk)
    (llm : String → List Chunk → List (String × String) → LlmResult) :
    (∀ msg, ask_endpoint none (Except.error msg) s req search dedupe llm =
      AskResult.httpError 503 "Qdrant unavailable") ∧
    (∀ e, search (ask_search_k s req) = Except.error e →
      ask_endpoint (some ()) (Except.ok ()) s req search dedupe llm =
        AskResult.httpError 500 ("Error processing question: " ++ e)) := by
  constructor
  · intro msg
    rfl
  · intro e he
    simp [ask_endpoint, get_qdrant_client, ask_question, he]

/-- Witness for the amended C5 at concrete requests. -/
theorem retrieval_error_surfaces_witness :
    ask_endpoint none (Except.error "down") ⟨5, "m", "u", 500, 50⟩
      ⟨"q", some 5, false, [], []⟩ (fun _ => Except.ok []) id
      (fun _ _ _ => ⟨"a", "m2"⟩) = AskResult.httpError 503 "Qdrant unavailable" ∧
    ask_endpoint (some ()) (Except.ok ()) ⟨5, "m", "u", 500, 50⟩
      ⟨"q", some 5, false, [], []⟩ (fun _ => Except.error "boom") id
      (fun _ _ _ => ⟨"a", "m2"⟩) =
      AskResult.httpError 500 ("Error processing question: " ++ "boom") := by
  have h := retrieval_error_surfaces ⟨5, "m", "u", 500, 50⟩
    ⟨"q", some 5, false, [], []⟩ (fun _ => Except.error "boom") id
    (fun _ _ _ => ⟨"a", "m2"⟩)
  exact ⟨(retrieval_error_surfaces ⟨5, "m", "u", 500, 50⟩
    ⟨"q", some 5, false, [], []⟩ (fun _ => Except.ok []) id
    (fun _ _ _ => ⟨"a", "m2"⟩)).1 "down", h.2 "boom" rfl⟩

/-- The greedy selection loop is idempotent for any duplicate
predicate: a chunk accepted against a set of kept chunks is accepted
again when the loop replays over its own output. -/
theorem dedupe_go_idem (dup : Chunk → Chunk → Bool) :
    ∀ (l kept : List Chunk),
      dedupe_go dup kept (dedupe_go dup kept l) = dedupe_go dup kept l := by
  intro l
  induction l with
  | nil => intro kept; rfl
  | cons c rest ih =>
    intro kept
    by_cases h : kept.any (fun a => dup a c) = true
    · have hstep : dedupe_go dup kept (c :: rest) = dedupe_go dup kept rest := by
        simp only [dedupe_go, h, if_pos]
      rw [hstep]
      exact ih kept
    · have hstep : dedupe_go dup kept (c :: rest) = c :: dedupe_go dup (c :: kept) rest := by
        simp only [dedupe_go, h, if_neg, Bool.not_eq_true]
      rw [hstep]
      have hstep2 : dedupe_go dup kept (c :: dedupe_go dup (c :: kept) rest) =
          c :: dedupe_go dup (c :: kept) (dedupe_go dup (c :: kept) rest) := by
        simp only [dedupe_go, h, if_neg, Bool.not_eq_true]
      rw [hstep2, ih (c :: kept)]

/-- Claim C4: deduplication is idempotent —
`deduplicate_chunks (deduplicate_chunks X) = deduplicate_chunks X`
for every ordered chunk sequence `X`. -/
theorem deduplicate_idempotent (X : List Chunk) :
    deduplicate_chunks (deduplicate_chunks X) = deduplicate_chunks X :=
  dedupe_go_idem is_duplicate X []

/-- Accumulator shift for the batch loop: running totals add to the
totals of a fresh run. -/
theorem batch_go_shift (ingest : Int → Except String IngestResult) :
    ∀ (l : List Int) (acc : BatchSummary),
      batch_go ingest acc l =
        { processed := acc.processed +
            (batch_go ingest { processed := 0, total_chunks := 0 } l).processed,
          total_chunks := acc.total_chunks +
            (batch_go ingest { processed := 0, total_chunks := 0 } l).total_chunks } := by
  intro l
  induction l with
  | nil => intro acc; simp [batch_go]
  | cons d rest ih =>
    intro acc
    cases hr : ingest d with
    | error e => simp only [batch_go, hr]; exact ih acc
    | ok r =>
      by_cases hs : r.status = "success"
      · simp only [batch_go, hr, if_pos hs]
        rw [ih { processed := acc.processed + 1,
                 total_chunks := acc.total_chunks + r.chunks_created },
            ih { processed := 0 + 1, total_chunks := 0 + r.chunks_created }]
        simp only [BatchSummary.mk.injEq]
        constructor <;> omega
      · simp only [batch_go, hr, if_neg hs]
        exact ih acc

/-- The batch loop distributes over list append. -/
theorem batch_go_append (ingest : Int → Except String IngestResult) :
    ∀ (l1 l2 : List Int) (acc : BatchSummary),
      batch_go ingest acc (l1 ++ l2) = batch_go ingest (batch_go ingest acc l1) l2 := by
  intro l1
  induction l1 with
  | nil => intro l2 acc; rfl
  | cons d rest ih =>
    intro l2 acc
    cases hr : ingest d with
    | error e => simp only [List.cons_append, batch_go, hr]; exact ih l2 acc
    | ok r =>
      by_cases hs : r.status = "success"
      · simp only [List.cons_append, batch_go, hr, if_pos hs]
        exact ih l2 _
      · simp only [List.cons_append, batch_go, hr, if_neg hs]
        exact ih l2 acc

/-- Claim C7: a per-document failure does not abort batch ingestion —
for any document list containing a document whose ingestion raises, the
batch completes, the failed document contributes nothing, and every
document before and after it is still processed: the totals are exactly
the totals of the surrounding sublists. -/
theorem batch_tolerates_failure (ingest : Int → Except String IngestResult)
    (e : String) (xs ys : List Int) (d : Int)
    (hfail : ingest d = Except.error e) :
    ingest_all_documents_background ingest (xs ++ d :: ys) =
      { processed := (ingest_all_documents_background ingest xs).processed +
          (ingest_all_documents_background ingest ys).processed,
        total_chunks := (ingest_all_documents_background ingest xs).total_chunks +
          (ingest_all_documents_background ingest ys).total_chunks } := by
  unfold ingest_all_documents_background
  rw [batch_go_append]
  rw [show batch_go ingest (batch_go ingest { processed := 0, total_chunks := 0 } xs)
      (d :: ys) = batch_go ingest (batch_go ingest { processed := 0, total_chunks := 0 } xs)
      ys from by rw [batch_go, hfail]]
  rw [batch_go_shift ingest ys]

/-- Witness for C7: a three-document batch whose middle document fails
still processes the outer two. -/
theorem batch_tolerates_failure_witness :
    ingest_all_documents_background
      (fun d => if d = 2 then Except.error "boom"
        else Except.ok { status := "success", chunks_created := 4, reason := none })
      ([1] ++ 2 :: [3]) =
      { processed :=
          (ingest_all_documents_background
            (fun d => if d = 2 then Except.error "boom"
              else Except.ok { status := "success", chunks_created := 4, reason := none })
            [1]).processed +
          (ingest_all_documents_background
            (fun d => if d = 2 then Except.error "boom"
              else Except.ok { status := "success", chunks_created := 4, reason := none })
            [3]).processed,
        total_chunks :=
          (ingest_all_documents_background
            (fun d => if d = 2 then Except.error "boom"
              else Except.ok { status := "success", chunks_created := 4, reason := none })
            [1]).total_chunks +
          (ingest_all_documents_background
            (fun d => if d = 2 then Except.error "boom"
              else Except.ok { status := "success", chunks_created := 4, reason := none })
            [3]).total_chunks } :=
  batch_tolerates_failure
    (fun d => if d = 2 then Except.error "boom"
      else Except.ok { status := "success", chunks_created := 4, reason := none })
    "boom" [1] [3] 2 rfl

/-- Lookup in a merged configuration: the override mapping wins per
key, falling back to the base mapping. -/
theorem dict_lookup_merge (a b : ConfigDict) (k : String) :
    dict_lookup (dict_merge a b) k =
      match dict_lookup b k with
      | some v => some v
      | none => dict_lookup a k := by
  unfold dict_merge dict_lookup
  induction b with
  | nil => simp
  | cons p rest ih =>
    by_cases h : (p.fst == k) = true
    · simp [List.find?, h]
    · have h2 : (p.fst == k) = false := by simpa using h
      simp only [List.cons_append, List.find?, h2]
      simpa using ih

/-- The resolved value of one parameter key for a defined space: the
override value when the (name-filtered) override dict has the key, the
defaults value otherwise. -/
def resolve_key (defaults overrides : ConfigDict) (k : String) : ℚ :=
  (match dict_lookup (overrides.filter (fun p => p.fst != "name")) k with
   | some v => some v
   | none => dict_lookup defaults k).getD 0

/-- Claim C8: resolving space parameters yields the defaults with the
space's per-key overrides applied, the `name` key excluded from the
merge; a `None` or undefined (or empty) space id yields exactly the
defaults; and with no config file the default score threshold is
0.35. -/
theorem space_params_merge (s : Settings) (file : Option SpacesFileData) :
    (∀ sid overrides, sid ≠ "" →
      spaces_lookup (load_spaces_config s file).spaces sid = some overrides →
      get_space_params s file (some sid) =
        { chunk_tokens :=
            rat_trunc (resolve_key (load_spaces_config s file).defaults overrides "chunk_tokens"),
          chunk_overlap :=
            rat_trunc (resolve_key (load_spaces_config s file).defaults overrides "chunk_overlap"),
          top_k :=
            rat_trunc (resolve_key (load_spaces_config s file).defaults overrides "top_k"),
          score_threshold :=
            resolve_key (load_spaces_config s file).defaults overrides "score_threshold" }) ∧
    (get_space_params s file none =
      { chunk_tokens :=
          rat_trunc ((dict_lookup (load_spaces_config s file).defaults "chunk_tokens").getD 0),
        chunk_overlap :=
          rat_trunc ((dict_lookup (load_spaces_config s file).defaults "chunk_overlap").getD 0),
        top_k :=
          rat_trunc ((dict_lookup (load_spaces_config s file).defaults "top_k").getD 0),
        score_threshold :=
          (dict_lookup (load_spaces_config s file).defaults "score_threshold").getD 0 }) ∧
    (∀ sid, spaces_lookup (load_spaces_config s file).spaces sid = none →
      get_space_params s file (some sid) = get_space_params s file none) ∧
    (get_space_params s none none).score_threshold = 35 / 100 := by
  refine ⟨?_, rfl, ?_, ?_⟩
  · intro sid overrides hne hlook
    unfold get_space_params
    simp only [hlook, if_pos hne, hne, ne_eq, not_false_iff, if_true]
    simp only [resolve_key, dict_lookup_merge]
  · intro sid hnone
    unfold get_space_params
    simp only [hnone]
    split
    · rfl
    · rfl
  · unfold get_space_params load_spaces_config
    simp [dict_lookup, fallback_defaults, List.find?]

/-- Witness for C8 at a concrete configuration with one space
overriding `top_k` and carrying a `name` key. -/
theorem space_params_merge_witness :
    get_space_params ⟨5, "m", "u", 500, 50⟩
      (some { defaults := [], spaces := [("work", [("top_k", 8), ("name", 1)])] })
      (some "work") =
      { chunk_tokens :=
          rat_trunc (resolve_key
            (load_spaces_config ⟨5, "m", "u", 500, 50⟩
              (some { defaults := [], spaces := [("work", [("top_k", 8), ("name", 1)])] })).defaults
            [("top_k", 8), ("name", 1)] "chunk_tokens"),
        chunk_overlap :=
          rat_trunc (resolve_key
            (load_spaces_config ⟨5, "m", "u", 500, 50⟩
              (some { defaults := [], spaces := [("work", [("top_k", 8), ("name", 1)])] })).defaults
            [("top_k", 8), ("name", 1)] "chunk_overlap"),
        top_k :=
          rat_trunc (resolve_key
            (load_spaces_config ⟨5, "m", "u", 500, 50⟩
              (some { defaults := [], spaces := [("work", [("top_k", 8), ("name", 1)])] })).defaults
            [("top_k", 8), ("name", 1)] "top_k"),
        score_threshold :=
          resolve_key
            (load_spaces_config ⟨5, "m", "u", 500, 50⟩
              (some { defaults := [], spaces := [("work", [("top_k", 8), ("name", 1)])] })).defaults
            [("top_k", 8), ("name", 1)] "score_threshold" } ∧
    (get_space_params ⟨5, "m", "u", 500, 50⟩ none none).score_threshold = 35 / 100 := by
  have h := space_params_merge ⟨5, "m", "u", 500, 50⟩
    (some { defaults := [], spaces := [("work", [("top_k", 8), ("name", 1)])] })
  have h0 := space_params_merge (⟨5, "m", "u", 500, 50⟩ : Settings) none
  exact ⟨h.1 "work" [("top_k", 8), ("name", 1)] (by decide) rfl, h0.2.2.2⟩

/-- Claim C6: an unsupported file type yields an empty page list; any
extraction or missing-library error inside the dispatch is absorbed
into an empty page list instead of propagating; and a document with an
empty page list ingests as a `skipped` result carrying a reason, with
no exception surfacing to the caller. -/
theorem unsupported_extraction_skipped (E : Extractors) (filename : String)
    (content : List Nat) (chunker : List (Option Nat × String) → Nat) :
    (detect_file_type filename content = "unknown" →
      extract_text_from_file E filename content = []) ∧
    (∀ e, extract_text_inner E filename content = Except.error e →
      extract_text_from_file E filename content = []) ∧
    (extract_text_from_file E filename content = [] →
      (ingest_document E filename content chunker).status = "skipped" ∧
      ((ingest_document E filename content chunker).reason).isSome = true) := by
  refine ⟨?_, ?_, ?_⟩
  · intro hunk
    have hinner : extract_text_inner E filename content = Except.ok [] := by
      unfold extract_text_inner
      rw [hunk]
      simp
    unfold extract_text_from_file
    rw [hinner]
  · intro e he
    unfold extract_text_from_file
    rw [he]
  · intro hempty
    unfold ingest_document
    rw [hempty]
    exact ⟨rfl, rfl⟩

/-- Witness for C6: a failing extractor set and a file of unknown type. -/
theorem unsupported_extraction_skipped_witness :
    extract_text_from_file
      ⟨fun _ => Except.error (ExtractErr.extractFailed "bad"),
       fun _ => Except.error (ExtractErr.libMissing "docx"),
       fun _ => Except.error (ExtractErr.extractFailed "bad"),
       fun _ => Except.error (ExtractErr.extractFailed "bad"),
       fun _ => Except.error (ExtractErr.extractFailed "bad"),
       fun _ => Except.error (ExtractErr.libMissing "xlsx"),
       fun _ => Except.error (ExtractErr.libMissing "pptx")⟩
      "data.bin" [255] = [] ∧
    (ingest_document
      ⟨fun _ => Except.error (ExtractErr.extractFailed "bad"),
       fun _ => Except.error (ExtractErr.libMissing "docx"),
       fun _ => Except.error (ExtractErr.extractFailed "bad"),
       fun _ => Except.error (ExtractErr.extractFailed "bad"),
       fun _ => Except.error (ExtractErr.extractFailed "bad"),
       fun _ => Except.error (ExtractErr.libMissing "xlsx"),
       fun _ => Except.error (ExtractErr.libMissing "pptx")⟩
      "data.bin" [255] (fun _ => 0)).status = "skipped" := by
  have h := unsupported_extraction_skipped
    ⟨fun _ => Except.error (ExtractErr.extractFailed "bad"),
     fun _ => Except.error (ExtractErr.libMissing "docx"),
     fun _ => Except.error (ExtractErr.extractFailed "bad"),
     fun _ => Except.error (ExtractErr.extractFailed "bad"),
     fun _ => Except.error (ExtractErr.extractFailed "bad"),
     fun _ => Except.error (ExtractErr.libMissing "xlsx"),
     fun _ => Except.error (ExtractErr.libMissing "pptx")⟩
    "data.bin" [255] (fun _ => 0)
  have hunk : detect_file_type "data.bin" [255] = "unknown" := by decide
  have hempty := h.1 hunk
  exact ⟨hempty, (h.2.2 hempty).1⟩

/-! ### Character-level lemmas for `clean_text` -/

/-- Every character of `replace_nul l` is non-null. -/
theorem mem_replace_nul (l : List Char) (c : Char) (h : c ∈ replace_nul l) :
    c.toNat ≠ 0 := by
  unfold replace_nul at h
  rcases List.mem_map.mp h with ⟨a, _, rfl⟩
  by_cases ha : a.toNat = 0
  · simp only [ha, if_pos]
    decide
  · simp only [ha, if_neg, not_false_iff]
    exact ha

/-- Characters of the whitespace collapse come from the input or are
the space character. -/
theorem mem_collapse_ws_go (l : List Char) :
    ∀ (b : Bool) (c : Char), c ∈ collapse_ws_go b l → c ∈ l ∨ c.toNat = 32 := by
  induction l with
  | nil => intro b c h; simp [collapse_ws_go] at h
  | cons a rest ih =>
    intro b c h
    unfold collapse_ws_go at h
    by_cases hsp : is_py_space a = true
    · rw [if_pos hsp] at h
      cases b with
      | true =>
        simp only [if_pos] at h
        rcases ih true c h with h2 | h2
        · exact Or.inl (List.mem_cons_of_mem a h2)
        · exact Or.inr h2
      | false =>
        simp only [Bool.false_eq_true, if_neg, not_false_iff] at h
        rcases List.mem_cons.mp h with h2 | h2
        · right; rw [h2]; decide
        · rcases ih true c h2 with h3 | h3
          · exact Or.inl (List.mem_cons_of_mem a h3)
          · exact Or.inr h3
    · rw [if_neg hsp] at h
      rcases List.mem_cons.mp h with h2 | h2
      · exact Or.inl (h2 ▸ List.mem_cons_self a rest)
      · rcases ih false c h2 with h3 | h3
        · exact Or.inl (List.mem_cons_of_mem a h3)
        · exact Or.inr h3

/-- Characters of the triple-newline collapse come from the input or
are the newline character. -/
theorem mem_collapse_nl_go :
    ∀ (fuel : Nat) (l : List Char) (c : Char),
      c ∈ collapse_nl_go fuel l → c ∈ l ∨ c.toNat = 10 := by
  intro fuel
  induction fuel with
  | zero => intro l c h; exact Or.inl h
  | succ fuel ih =>
    intro l c h
    cases l with
    | nil => simp [collapse_nl_go] at h
    | cons a rest =>
      unfold collapse_nl_go at h
      by_cases hnl : a.toNat = 10
      · rw [if_pos hnl] at h
        by_cases hcount : 3 ≤ count_nl (List.takeWhile is_py_space (a :: rest))
        · rw [if_pos hcount] at h
          rcases List.mem_cons.mp h with h2 | h2
          · right; rw [h2]; decide
          · rcases List.mem_cons.mp h2 with h3 | h3
            · right; rw [h3]; decide
            · rcases ih _ c h3 with h4 | h4
              · exact Or.inl (List.mem_of_mem_drop h4)
              · exact Or.inr h4
        · rw [if_neg hcount] at h
          rcases List.mem_cons.mp h with h2 | h2
          · exact Or.inl (h2 ▸ List.mem_cons_self a rest)
          · rcases ih rest c h2 with h3 | h3
            · exact Or.inl (List.mem_cons_of_mem a h3)
            · exact Or.inr h3
      · rw [if_neg hnl] at h
        rcases List.mem_cons.mp h with h2 | h2
        · exact Or.inl (h2 ▸ List.mem_cons_self a rest)
        · rcases ih rest c h2 with h3 | h3
          · exact Or.inl (List.mem_cons_of_mem a h3)
          · exact Or.inr h3

/-- Characters of the artifact sweep come from the input or are the
space character. -/
theorem mem_sweep_artifacts (l : List Char) (c : Char)
    (h : c ∈ sweep_artifacts l) : c ∈ l ∨ c.toNat = 32 := by
  unfold sweep_artifacts at h
  rcases List.mem_map.mp h with ⟨a, ha, rfl⟩
  by_cases hall : is_allowed_char a = true
  · rw [if_pos hall]; exact Or.inl ha
  · rw [if_neg hall]; right; decide

/-- Characters of the strip come from the input. -/
theorem mem_py_strip (l : List Char) (c : Char) (h : c ∈ py_strip l) : c ∈ l := by
  unfold py_strip at h
  rw [List.mem_reverse] at h
  have h2 := (List.dropWhile_sublist (l := (l.dropWhile is_py_space).reverse)
    (p := is_py_space)).mem h
  rw [List.mem_reverse] at h2
  exact (List.dropWhile_sublist (l := l) (p := is_py_space)).mem h2

/-- The head of `dropWhile p l` does not satisfy `p`. -/
theorem head_dropWhile_false {p : Char → Bool} :
    ∀ (l : List Char) (c : Char), (l.dropWhile p).head? = some c → p c = false := by
  intro l
  induction l with
  | nil => intro c h; simp at h
  | cons a rest ih =>
    intro c h
    by_cases hp : p a = true
    · rw [List.dropWhile_cons_of_pos hp] at h
      exact ih c h
    · rw [List.dropWhile_cons_of_neg hp] at h
      simp only [List.head?_cons, Option.some.injEq] at h
      rw [← h]
      simpa using hp

/-- A non-empty `dropWhile` keeps the last element of the list. -/
theorem getLast_dropWhile_eq {p : Char → Bool} :
    ∀ (l : List Char), l.dropWhile p ≠ [] →
      (l.dropWhile p).getLast? = l.getLast? := by
  intro l
  induction l with
  | nil => intro h; simp at h
  | cons a rest ih =>
    intro h
    by_cases hp : p a = true
    · rw [List.dropWhile_cons_of_pos hp] at h ⊢
      have hrest : rest ≠ [] := by
        intro hre
        rw [hre] at h
        simp at h
      rw [ih h]
      cases rest with
      | nil => exact absurd rfl hrest
      | cons b t => rw [List.getLast?_cons_cons]
    · rw [List.dropWhile_cons_of_neg hp]

/-- The first character of a stripped list is not whitespace. -/
theorem py_strip_head (l : List Char) (c : Char)
    (h : (py_strip l).head? = some c) : is_py_space c = false := by
  unfold py_strip at h
  rw [List.head?_reverse] at h
  by_cases hne : (l.dropWhile is_py_space).reverse.dropWhile is_py_space = []
  · rw [hne] at h
    simp at h
  · rw [getLast_dropWhile_eq _ hne, List.getLast?_reverse] at h
    exact head_dropWhile_false l c h

/-- The last character of a stripped list is not whitespace. -/
theorem py_strip_last (l : List Char) (c : Char)
    (h : (py_strip l).getLast? = some c) : is_py_space c = false := by
  unfold py_strip at h
  rw [List.getLast?_reverse] at h
  exact head_dropWhile_false _ c h

/-- The invariant claimed for cleaned text: no null character and no
leading or trailing whitespace. -/
def clean_invariant (r : String) : Prop :=
  (∀ c ∈ r.toList, c.toNat ≠ 0) ∧
  (∀ c, r.toList.head? = some c → is_py_space c = false) ∧
  (∀ c, r.toList.getLast? = some c → is_py_space c = false)

/-- Every output of `clean_text` satisfies the invariant. -/
theorem clean_text_satisfies (s : String) : clean_invariant (clean_text s) := by
  unfold clean_text
  by_cases hs : (s == "") = true
  · rw [if_pos hs]
    refine ⟨?_, ?_, ?_⟩ <;> intro c h <;> simp [String.toList] at h
  · rw [if_neg hs]
    have htl : ∀ (l : List Char), (l.asString).toList = l := fun l => rfl
    refine ⟨?_, ?_, ?_⟩
    · intro c h
      rw [htl] at h
      have h1 := mem_py_strip _ c h
      rcases mem_sweep_artifacts _ c h1 with h2 | h2
      · rcases mem_collapse_nl_go _ _ c h2 with h3 | h3
        · rcases mem_collapse_ws_go _ _ c h3 with h4 | h4
          · exact mem_replace_nul _ c h4
          · omega
        · omega
      · omega
    · intro c h
      rw [htl] at h
      exact py_strip_head _ c h
    · intro c h
      rw [htl] at h
      exact py_strip_last _ c h

/-- Every page text kept by the PDF page loop is a `clean_text` output
and is non-empty. -/
theorem mem_pdf_pages (raws : List (Except String String)) (q : Nat × String)
    (hq : q ∈ pdf_pages raws) : ∃ t, q.snd = clean_text t ∧ q.snd ≠ "" := by
  unfold pdf_pages at hq
  rcases List.mem_filterMap.mp hq with ⟨a, _, ha⟩
  cases hsnd : a.snd with
  | error e => rw [hsnd] at ha; simp at ha
  | ok t =>
    rw [hsnd] at ha
    simp only at ha
    by_cases hne : clean_text t ≠ ""
    · rw [if_pos hne] at ha
      have he := Option.some.inj ha
      refine ⟨t, ?_, ?_⟩
      · rw [← he]
      · rw [← he]
        exact hne
    · rw [if_neg hne] at ha
      exact absurd ha (by simp)

/-- A single-text extractor branch only emits `clean_text` outputs:
the extractor cleans the raw library text and the dispatch wraps the
non-empty result. -/
theorem pages_of_single (e : Except ExtractErr String)
    (pages : List (Option Nat × String))
    (h : (e.map clean_text).map to_single_pages = Except.ok pages) :
    ∀ p ∈ pages, ∃ t, p.snd = clean_text t := by
  cases e with
  | error err => simp [Except.map] at h
  | ok raw =>
    simp only [Except.map] at h
    have hp := Except.ok.inj h
    intro p hmem
    rw [← hp] at hmem
    unfold to_single_pages at hmem
    by_cases hne : clean_text raw ≠ ""
    · rw [if_pos hne] at hmem
      have he := List.mem_singleton.mp hmem
      exact ⟨raw, by rw [he]⟩
    · rw [if_neg hne] at hmem
      simp at hmem

/-- The PDF branch of the dispatch only emits `clean_text` outputs. -/
theorem pages_of_pdf (e : Except ExtractErr (List (Except String String)))
    (pages : List (Option Nat × String))
    (h : ((e.map pdf_pages).map
      (fun ps => ps.map (fun q => (some q.fst, q.snd)))) = Except.ok pages) :
    ∀ p ∈ pages, ∃ t, p.snd = clean_text t := by
  cases e with
  | error err => simp [Except.map] at h
  | ok raws =>
    simp only [Except.map] at h
    have hp := Except.ok.inj h
    intro p hmem
    rw [← hp] at hmem
    rcases List.mem_map.mp hmem with ⟨q, hq, rfl⟩
    rcases mem_pdf_pages raws q hq with ⟨t, ht, _⟩
    exact ⟨t, ht⟩

/-- Every text emitted by `extract_text_from_file`, for every file type
and every outcome of the extraction libraries, is a `clean_text`
output: each of the seven extractors routes its raw text through
`clean_text` before the dispatch sees it. -/
theorem extract_text_from_file_clean (E : Extractors) (filename : String)
    (content : List Nat) :
    ∀ p ∈ extract_text_from_file E filename content, ∃ t, p.snd = clean_text t := by
  intro p hp
  unfold extract_text_from_file at hp
  cases hinner : extract_text_inner E filename content with
  | error e => rw [hinner] at hp; simp at hp
  | ok pages =>
    rw [hinner] at hp
    replace hp : p ∈ pages := hp
    unfold extract_text_inner at hinner
    dsimp only at hinner
    split at hinner
    · exact pages_of_pdf (E.pdf content) pages hinner p hp
    · split at hinner
      · exact pages_of_single (E.docx content) pages hinner p hp
      · split at hinner
        · exact pages_of_single (E.txt content) pages hinner p hp
        · split at hinner
          · exact pages_of_single (E.md content) pages hinner p hp
          · split at hinner
            · exact pages_of_single (E.html content) pages hinner p hp
            · split at hinner
              · exact pages_of_single (E.xlsx content) pages hinner p hp
              · split at hinner
                · exact pages_of_single (E.pptx content) pages hinner p hp
                · have he := Except.ok.inj hinner
                  rw [← he] at hp
                  simp at hp

/-- Claim C10: `clean_text` returns the empty string on empty input and
otherwise a string with no null character and no leading or trailing
whitespace; every text extractor passes its extracted text through
`clean_text` before it reaches the dispatch, so every text
`extract_text_from_file` hands to chunking and indexing — for every
file type and every library outcome — is a `clean_text` output and
satisfies the invariant. -/
theorem clean_text_invariant :
    clean_text "" = "" ∧
    (∀ s, clean_invariant (clean_text s)) ∧
    (∀ (E : Extractors) (filename : String) (content : List Nat),
      ∀ p ∈ extract_text_from_file E filename content,
        (∃ t, p.snd = clean_text t) ∧ clean_invariant p.snd) := by
  refine ⟨rfl, clean_text_satisfies, ?_⟩
  intro E filename content p hp
  rcases extract_text_from_file_clean E filename content p hp with ⟨t, ht⟩
  refine ⟨⟨t, ht⟩, ?_⟩
  rw [ht]
  exact clean_text_satisfies t

/-- Witness for C10 at concrete strings and a concrete text file run
through the dispatch. -/
theorem clean_text_invariant_witness :
    clean_text "" = "" ∧
    (Char.ofNat 97).toNat ≠ 0 ∧
    is_py_space (Char.ofNat 97) = false ∧
    clean_invariant "hi" := by
  have h := clean_text_invariant
  have h2 := h.2.1 " a "
  have h3 := h.2.2
    ⟨fun _ => Except.error (ExtractErr.extractFailed "bad"),
     fun _ => Except.error (ExtractErr.libMissing "docx"),
     fun _ => Except.ok "hi",
     fun _ => Except.error (ExtractErr.extractFailed "bad"),
     fun _ => Except.error (ExtractErr.extractFailed "bad"),
     fun _ => Except.error (ExtractErr.libMissing "xlsx"),
     fun _ => Except.error (ExtractErr.libMissing "pptx")⟩
    "a.txt" [] ((none : Option Nat), "hi") (by decide)
  exact ⟨h.1, h2.1 (Char.ofNat 97) (by decide), h2.2.1 (Char.ofNat 97) (by decide),
    h3.2⟩

end RagApi
